import Mathlib

/-!
Verification of the geometric-primitive construction kernel (`src/src/core/paths.ts`
of maker.js): the `Arc`, `Circle`, `Line`, `Chord`, `Parallel` and `BezierSeed`
constructors.  Numbers are modelled as rationals; the external geometry-utility
collaborators (angle computation, circle intersection, Euclidean distance, polar
conversion, arc endpoint extraction) are not part of the source under `src/` and are
therefore modelled from the specification: the exactly-computable ones (midpoint,
vector addition, 90-degree rotation, slope intersection, angle normalization,
arc-angle betweenness) as concrete rational functions, the transcendental ones
(atan2-style angles, square-root distances, trigonometric polar conversion) as
abstract members of a `GeomUtils` record, with their contracts stated as hypotheses
of the theorems that need them.
-/

/-- A 2D point with rational coordinates (the source's `IPoint` two-element array). -/
structure Pt where
  x : ℚ
  y : ℚ
deriving DecidableEq

/-- Modelled from the spec: the path-type tagging scheme - discriminant for lines. -/
def pathType.Line : String := "line"

/-- Modelled from the spec: the path-type tagging scheme - discriminant for circles. -/
def pathType.Circle : String := "circle"

/-- Modelled from the spec: the path-type tagging scheme - discriminant for arcs. -/
def pathType.Arc : String := "arc"

/-- Modelled from the spec: the path-type tagging scheme - discriminant for bezier seeds. -/
def pathType.BezierSeed : String := "bezier-seed"

/-- Modelled from the spec: pointAverage - the midpoint of two points. -/
def point.average (a b : Pt) : Pt := ⟨(a.x + b.x) / 2, (a.y + b.y) / 2⟩

/-- Modelled from the spec: pointAdd - a point translated by a vector. -/
def point.add (p v : Pt) : Pt := ⟨p.x + v.x, p.y + v.y⟩

/-- Modelled from the spec: pointClone - a value copy of a point. -/
def point.clone (p : Pt) : Pt := p

/-- Modelled from the spec: pointFromSlopeIntersection - the intersection point of the
infinite extensions of two lines (each given by origin and end point), or none if the
lines are parallel.  Solved parametrically: the first line is `l1o + t*(l1e - l1o)`. -/
def point.fromSlopeIntersection (l1o l1e l2o l2e : Pt) : Option Pt :=
  let d1x := l1e.x - l1o.x
  let d1y := l1e.y - l1o.y
  let d2x := l2e.x - l2o.x
  let d2y := l2e.y - l2o.y
  let det := d1x * d2y - d1y * d2x
  if det = 0 then none
  else
    let t := ((l2o.x - l1o.x) * d2y - (l2o.y - l1o.y) * d2x) / det
    some ⟨l1o.x + t * d1x, l1o.y + t * d1y⟩

/-- Modelled from the spec: pathRotate restricted to the one rotation the source
performs - rotating a point by 90 degrees about a pivot (used on both endpoints of a
chord to build its perpendicular bisector). -/
def path.rotate90 (pivot p : Pt) : Pt :=
  ⟨pivot.x - (p.y - pivot.y), pivot.y + (p.x - pivot.x)⟩

/-- Modelled from the spec: pathMove for a line - relocates the line so its origin is
at the given point, preserving shape (the end point is translated by the same delta). -/
def path.moveLine (o e newOrigin : Pt) : Pt × Pt :=
  (newOrigin, ⟨newOrigin.x + (e.x - o.x), newOrigin.y + (e.y - o.y)⟩)

/-- Modelled from the spec: angle normalization into [0, 360) (the angle utility's
noRevolutions), used by the arc-angle betweenness predicate. -/
def angle.noRevolutions (a : ℚ) : ℚ := a - 360 * (⌊a / 360⌋ : ℤ)

/-- Modelled from the spec: measureIsBetweenArcAngles - true if `angleInQuestion` lies
within the angular span of an arc with the given start and end angles, traversed
counter-clockwise from start to end with wrap-around; the `exclusive` flag excludes
the endpoints.  The arc argument of the source is passed as its two angle fields. -/
def measure.isBetweenArcAngles (angleInQuestion startAngle endAngle : ℚ)
    (exclusive : Bool) : Bool :=
  let span := angle.noRevolutions (endAngle - startAngle)
  let rel := angle.noRevolutions (angleInQuestion - startAngle)
  if exclusive then decide (0 < rel ∧ rel < span) else decide (rel ≤ span)

/-- Squared Euclidean distance, the exact rational quantity used to express distance
equalities without a square root. -/
def sqDist (p q : Pt) : ℚ := (p.x - q.x) ^ 2 + (p.y - q.y) ^ 2

/-- Modelled from the spec: the abstract geometry-utility API (section 6 of the spec)
for the collaborators whose values are transcendental and therefore not rationally
computable.  Contracts (angle range, mirror symmetry, distance congruence) are stated
as hypotheses of the theorems that rely on them. -/
structure GeomUtils where
  ofPointInDegrees : Pt → Pt → ℚ
  ofLineInDegrees : Pt → Pt → ℚ
  toRadians : ℚ → ℚ
  fromPolar : ℚ → ℚ → Pt
  pointDistance : Pt → Pt → ℚ
  circleIntersection : Pt → ℚ → Pt → ℚ → Option (Pt × Pt)
  fromArc : Pt → ℚ → ℚ → ℚ → Pt × Pt

/-- The circle object: `type`, `origin`, `radius` fields of the source's `Circle`. -/
structure CircleObj where
  type : String
  origin : Pt
  radius : ℚ
deriving DecidableEq

/-- Circle from center point and radius (source `Circle`, 2 args, second a number). -/
def Circle.fromRadius (origin : Pt) (radius : ℚ) : CircleObj :=
  ⟨pathType.Circle, origin, radius⟩

/-- Circle from 2 points treated as a diameter (source `Circle`, 2 point args):
origin is the average of the points, radius the distance from origin to the first. -/
def Circle.from2Points (u : GeomUtils) (a b : Pt) : CircleObj :=
  let origin := point.average a b
  ⟨pathType.Circle, origin, u.pointDistance origin a⟩

/-- Circle from 3 points (source `Circle`, 3 args): two chords `(a,b)` and `(b,c)`
are each rotated 90 degrees about their own midpoint (loop `for (i = 2; i--)`, so
`perpendiculars[0]` comes from chord `(b,c)` and `perpendiculars[1]` from `(a,b)`);
the origin is their slope intersection and the radius the distance from it to `a`.
When the slope intersection has no result (collinear points) the JavaScript origin is
null and the subsequent distance computation faults, modelled here as `none`. -/
def Circle.from3Points (u : GeomUtils) (a b c : Pt) : Option CircleObj :=
  let m1 := point.average b c
  let p1o := path.rotate90 m1 b
  let p1e := path.rotate90 m1 c
  let m0 := point.average a b
  let p0o := path.rotate90 m0 a
  let p0e := path.rotate90 m0 b
  match point.fromSlopeIntersection p1o p1e p0o p0e with
  | none => none
  | some origin => some ⟨pathType.Circle, origin, u.pointDistance origin a⟩

/-- The arc object: the source's `Arc` fields.  JavaScript object fields that a
constructor path may leave unassigned are modelled as `Option`; `type` is always
assigned last. -/
structure ArcObj where
  origin : Option Pt
  radius : Option ℚ
  startAngle : Option ℚ
  endAngle : Option ℚ
  type : String
deriving DecidableEq

/-- The source's private `IArcSpan` record built for each SVG candidate center. -/
structure IArcSpan where
  origin : Pt
  startAngle : ℚ
  endAngle : ℚ
  size : ℚ
deriving DecidableEq

/-- One iteration of the source's SVG candidate loop: start and end angles of the two
given endpoints as seen from a candidate `origin` (order chosen by the clockwise
flag), end angle bumped by 360 when it is below the start angle, size the difference. -/
def Arc.svgSpan (u : GeomUtils) (a b : Pt) (clockwise : Bool) (origin : Pt) : IArcSpan :=
  let startAngle := u.ofPointInDegrees origin (if clockwise then b else a)
  let endAngle0 := u.ofPointInDegrees origin (if clockwise then a else b)
  let endAngle := if endAngle0 < startAngle then endAngle0 + 360 else endAngle0
  ⟨origin, startAngle, endAngle, endAngle - startAngle⟩

/-- The source's SVG candidate list: the loop `for (i = 2; i--)` processes
`intersectionPoints[1]` first and `intersectionPoints[0]` second; the first span is
pushed, the second is pushed after it when its size is strictly larger and unshifted
before it otherwise, so the list is ascending by size. -/
def Arc.svgSpans (u : GeomUtils) (a b : Pt) (clockwise : Bool) (pts : Pt × Pt) :
    List IArcSpan :=
  if (Arc.svgSpan u a b clockwise pts.1).size > (Arc.svgSpan u a b clockwise pts.2).size
  then [Arc.svgSpan u a b clockwise pts.2, Arc.svgSpan u a b clockwise pts.1]
  else [Arc.svgSpan u a b clockwise pts.1, Arc.svgSpan u a b clockwise pts.2]

/-- SVG-style arc (source `Arc`, 5 args): radius is assigned first; the two candidate
centers are the intersection of the radius-circles about the endpoints; when there is
no intersection the remaining fields are left unassigned (the partially-populated
object the source produces).  The span at index `largeArc ? 1 : 0` of the ascending
list provides origin and angles.  The final inner `none` branch is unreachable since
the span list always has two members. -/
def Arc.fromSvg (u : GeomUtils) (a b : Pt) (radius : ℚ) (largeArc clockwise : Bool) :
    ArcObj :=
  match u.circleIntersection a radius b radius with
  | none => ⟨none, some radius, none, none, pathType.Arc⟩
  | some pts =>
    let spans := Arc.svgSpans u a b clockwise pts
    match spans[if largeArc then 1 else 0]? with
    | some span =>
      ⟨some span.origin, some radius, some span.startAngle, some span.endAngle,
        pathType.Arc⟩
    | none => ⟨none, some radius, none, none, pathType.Arc⟩

/-- Arc from center, radius and both angles (source `Arc`, 4 args): direct assignment. -/
def Arc.fromCenter (origin : Pt) (radius startAngle endAngle : ℚ) : ArcObj :=
  ⟨some origin, some radius, some startAngle, some endAngle, pathType.Arc⟩

/-- Arc from 2 points and an optional clockwise flag (source `Arc`, 2 args plus flag):
`Circle.call(this, a, b)` sets origin and radius from the diameter construction, then
the start angle is that of the first selected endpoint and the end angle that of the
second, the selection swapped by the clockwise flag. -/
def Arc.from2Points (u : GeomUtils) (a b : Pt) (clockwise : Bool) : ArcObj :=
  let circle := Circle.from2Points u a b
  let startAngle := u.ofPointInDegrees circle.origin (if clockwise then b else a)
  let endAngle := u.ofPointInDegrees circle.origin (if clockwise then a else b)
  ⟨some circle.origin, some circle.radius, some startAngle, some endAngle, pathType.Arc⟩

/-- Arc from 3 points (source `Arc`, 3 point args): `Circle.apply` builds the
circumcircle (faulting on collinear input, modelled as `none`), the three angles from
its origin are computed, start and end are tentatively the angles of the first and
third point, and they are swapped when the middle point's angle is not between them. -/
def Arc.from3Points (u : GeomUtils) (a b c : Pt) : Option ArcObj :=
  match Circle.from3Points u a b c with
  | none => none
  | some circ =>
    let a0 := u.ofPointInDegrees circ.origin a
    let a1 := u.ofPointInDegrees circ.origin b
    let a2 := u.ofPointInDegrees circ.origin c
    let se := if measure.isBetweenArcAngles a1 a0 a2 false then (a0, a2) else (a2, a0)
    some ⟨some circ.origin, some circ.radius, some se.1, some se.2, pathType.Arc⟩

/-- The line object: the source's `Line` fields (`end` is a Lean keyword, so `endP`). -/
structure LineObj where
  type : String
  origin : Pt
  endP : Pt
deriving DecidableEq

/-- Line from origin and end point (source `Line`). -/
def Line.make (origin endP : Pt) : LineObj :=
  ⟨pathType.Line, origin, endP⟩

/-- Chord of an arc (source `Chord`): the arc's two endpoints (via the pointFromArc
collaborator, which takes the arc's fields) become origin and end of a line-typed
path. -/
def Chord.fromArc (u : GeomUtils) (origin : Pt) (radius startAngle endAngle : ℚ) :
    LineObj :=
  let arcPoints := u.fromArc origin radius startAngle endAngle
  ⟨pathType.Line, arcPoints.1, arcPoints.2⟩

/-- One candidate of the source `Parallel` constructor's `getNewOrigin`: the original
origin offset by `distance` at `offsetAngle` from the line's angle, paired with its
distance (nearness) to the near point. -/
def Parallel.getNewOrigin (u : GeomUtils) (toLineOrigin : Pt)
    (angleOfLine distance : ℚ) (nearPoint : Pt) (offsetAngle : ℚ) : Pt × ℚ :=
  let origin :=
    point.add toLineOrigin (u.fromPolar (u.toRadians (angleOfLine + offsetAngle)) distance)
  (origin, u.pointDistance origin nearPoint)

/-- Parallel line (source `Parallel`): endpoints are cloned from the source line, two
candidate origins are generated at -90 and +90 degrees, the first is selected exactly
when its nearness is strictly less than the second's, and the line is moved so its
origin is the selected candidate. -/
def Parallel.make (u : GeomUtils) (toLineO toLineE : Pt) (distance : ℚ)
    (nearPoint : Pt) : LineObj :=
  let origin := point.clone toLineO
  let endP := point.clone toLineE
  let angleOfLine := u.ofLineInDegrees origin endP
  let n0 := Parallel.getNewOrigin u toLineO angleOfLine distance nearPoint (-90)
  let n1 := Parallel.getNewOrigin u toLineO angleOfLine distance nearPoint 90
  let newOrigin := if n0.2 < n1.2 then n0.1 else n1.1
  let moved := path.moveLine origin endP newOrigin
  ⟨pathType.Line, moved.1, moved.2⟩

/-- The bezier seed object: the source's `BezierSeed` fields; `origin`, `end` and
`controls` are `Option` since some constructor paths leave them unassigned. -/
structure BezierSeedObj where
  type : String
  origin : Option Pt
  endP : Option Pt
  controls : Option (List Pt)
deriving DecidableEq

/-- Bezier seed from a flat point array (source `BezierSeed`, 1 array arg): origin is
`points[0]`; a length-3 array yields one control and end `points[2]`, a length-4 array
two controls and end `points[3]`; any other length yields end `points[1]` with the
controls field left unassigned. -/
def BezierSeed.fromPointArray (points : List Pt) : BezierSeedObj :=
  match points with
  | [p0, p1, p2] => ⟨pathType.BezierSeed, some p0, some p2, some [p1]⟩
  | [p0, p1, p2, p3] => ⟨pathType.BezierSeed, some p0, some p3, some [p1, p2]⟩
  | _ => ⟨pathType.BezierSeed, points[0]?, points[1]?, none⟩

/-- Bezier seed from origin, a control point or control array, and end (source
`BezierSeed`, 3 args): an array argument is taken as the controls as-is, a single
point becomes a one-element control list.  This branch of the source assigns only
`controls` and `end`; it never assigns `this.origin`, so the origin field stays
unassigned even though an origin argument was supplied. -/
def BezierSeed.fromQuadOrCubic (origin : Pt) (controlArg : Pt ⊕ List Pt) (endP : Pt) :
    BezierSeedObj :=
  let controls :=
    match controlArg with
    | Sum.inr arr => arr
    | Sum.inl p => [p]
  ⟨pathType.BezierSeed, none, some endP, some controls⟩

/-- Bezier seed from origin, two control points and end (source `BezierSeed`, 4
args).  As in the 3-argument branch, the source assigns only `controls` and `end`,
never `this.origin`, so the origin field stays unassigned. -/
def BezierSeed.fromCubicParams (origin c1 c2 endP : Pt) : BezierSeedObj :=
  ⟨pathType.BezierSeed, none, some endP, some [c1, c2]⟩

/-! Helper lemmas about the angle normalization `angle.noRevolutions`. -/

theorem angle.noRevolutions_nonneg (x : ℚ) : 0 ≤ angle.noRevolutions x := by
  have h := Int.floor_le (x / 360)
  unfold angle.noRevolutions
  have h360 : (360 : ℚ) * (⌊x / 360⌋ : ℤ) ≤ x := by
    have := mul_le_mul_of_nonneg_left h (by norm_num : (0:ℚ) ≤ 360)
    calc (360 : ℚ) * (⌊x / 360⌋ : ℤ) ≤ 360 * (x / 360) := this
    _ = x := by ring
  linarith

theorem angle.noRevolutions_lt (x : ℚ) : angle.noRevolutions x < 360 := by
  have h := Int.lt_floor_add_one (x / 360)
  unfold angle.noRevolutions
  have h360 : x < 360 * (⌊x / 360⌋ : ℤ) + 360 := by
    have := mul_lt_mul_of_pos_left h (by norm_num : (0:ℚ) < 360)
    calc x = 360 * (x / 360) := by ring
    _ < 360 * ((⌊x / 360⌋ : ℤ) + 1) := this
    _ = 360 * (⌊x / 360⌋ : ℤ) + 360 := by ring
  linarith

theorem angle.noRevolutions_eq_self (x : ℚ) (h0 : 0 ≤ x) (h1 : x < 360) :
    angle.noRevolutions x = x := by
  have hf : ⌊x / 360⌋ = 0 := by
    rw [Int.floor_eq_zero_iff]
    constructor
    · positivity
    · rw [div_lt_one (by norm_num : (0:ℚ) < 360)]; exact h1
  unfold angle.noRevolutions
  rw [hf]
  push_cast
  ring

theorem angle.noRevolutions_add_int (x : ℚ) (k : ℤ) :
    angle.noRevolutions (x + 360 * k) = angle.noRevolutions x := by
  unfold angle.noRevolutions
  have hdiv : (x + 360 * k) / 360 = x / 360 + k := by
    field_simp
    ring
  rw [hdiv, Int.floor_add_int]
  push_cast
  ring

theorem angle.noRevolutions_decompose (x : ℚ) :
    x = angle.noRevolutions x + 360 * (⌊x / 360⌋ : ℤ) := by
  unfold angle.noRevolutions
  ring

theorem angle.noRevolutions_ne_zero (x : ℚ) (h0 : -360 < x) (h1 : x < 360)
    (h2 : x ≠ 0) : angle.noRevolutions x ≠ 0 := by
  rcases le_or_lt 0 x with h | h
  · rw [angle.noRevolutions_eq_self x h h1]
    exact h2
  · have e1 : angle.noRevolutions x = angle.noRevolutions (x + 360 * (1 : ℤ)) :=
      (angle.noRevolutions_add_int x 1).symm
    have e2 : x + 360 * ((1 : ℤ) : ℚ) = x + 360 := by push_cast; ring
    have e3 : angle.noRevolutions (x + 360) = x + 360 :=
      angle.noRevolutions_eq_self _ (by linarith) (by linarith)
    rw [e1, e2, e3]
    intro hc
    linarith

theorem angle.noRevolutions_neg (x : ℚ) (h : angle.noRevolutions x ≠ 0) :
    angle.noRevolutions (-x) = 360 - angle.noRevolutions x := by
  have hdec := angle.noRevolutions_decompose x
  have h1 : angle.noRevolutions (-x) =
      angle.noRevolutions (-(angle.noRevolutions x)) := by
    have e : -x = -(angle.noRevolutions x) + 360 * ((-⌊x / 360⌋ : ℤ) : ℚ) := by
      push_cast
      linarith
    rw [e, angle.noRevolutions_add_int]
  have h2 : 0 ≤ angle.noRevolutions x := angle.noRevolutions_nonneg x
  have h3 : angle.noRevolutions x < 360 := angle.noRevolutions_lt x
  have h2' : 0 < angle.noRevolutions x := lt_of_le_of_ne h2 (Ne.symm h)
  have h4 : angle.noRevolutions (-(angle.noRevolutions x)) =
      -(angle.noRevolutions x) + 360 := by
    have e1 : angle.noRevolutions (-(angle.noRevolutions x)) =
        angle.noRevolutions (-(angle.noRevolutions x) + 360 * (1 : ℤ)) :=
      (angle.noRevolutions_add_int _ 1).symm
    have e2 : -(angle.noRevolutions x) + 360 * ((1 : ℤ) : ℚ) =
        -(angle.noRevolutions x) + 360 := by push_cast; ring
    have e3 : angle.noRevolutions (-(angle.noRevolutions x) + 360) =
        -(angle.noRevolutions x) + 360 :=
      angle.noRevolutions_eq_self _ (by linarith) (by linarith)
    rw [e1, e2, e3]
  rw [h1, h4]
  ring

theorem svgSpan_size_norm (s e : ℚ) (hs0 : 0 ≤ s) (hs1 : s < 360) (he0 : 0 ≤ e)
    (he1 : e < 360) :
    (if e < s then e + 360 else e) - s = angle.noRevolutions (e - s) := by
  by_cases hlt : e < s
  · rw [if_pos hlt]
    have e1 : angle.noRevolutions (e - s) =
        angle.noRevolutions ((e - s) + 360 * (1 : ℤ)) :=
      (angle.noRevolutions_add_int _ 1).symm
    have e2 : (e - s) + 360 * ((1 : ℤ) : ℚ) = e - s + 360 := by push_cast; ring
    rw [e1, e2, angle.noRevolutions_eq_self _ (by linarith) (by linarith)]
    ring
  · rw [if_neg hlt]
    push_neg at hlt
    rw [angle.noRevolutions_eq_self _ (by linarith) (by linarith)]

theorem svgSpan_fields (u : GeomUtils) (a b : Pt) (cw : Bool) (o : Pt) :
    (Arc.svgSpan u a b cw o).origin = o ∧
    (Arc.svgSpan u a b cw o).startAngle =
      u.ofPointInDegrees o (if cw then b else a) ∧
    ((Arc.svgSpan u a b cw o).endAngle = u.ofPointInDegrees o (if cw then a else b) ∨
      (Arc.svgSpan u a b cw o).endAngle =
        u.ofPointInDegrees o (if cw then a else b) + 360) ∧
    (Arc.svgSpan u a b cw o).size =
      (Arc.svgSpan u a b cw o).endAngle - (Arc.svgSpan u a b cw o).startAngle := by
  refine ⟨rfl, rfl, ?_, rfl⟩
  by_cases hlt : u.ofPointInDegrees o (if cw then a else b) <
      u.ofPointInDegrees o (if cw then b else a)
  · right
    simp [Arc.svgSpan, hlt]
  · left
    simp [Arc.svgSpan, hlt]

theorem mem_svgSpans (u : GeomUtils) (a b : Pt) (cw : Bool) (pts : Pt × Pt)
    (sp : IArcSpan) :
    sp ∈ Arc.svgSpans u a b cw pts ↔
      sp = Arc.svgSpan u a b cw pts.1 ∨ sp = Arc.svgSpan u a b cw pts.2 := by
  by_cases hc : (Arc.svgSpan u a b cw pts.1).size > (Arc.svgSpan u a b cw pts.2).size
  · simp only [Arc.svgSpans, if_pos hc, List.mem_cons, List.not_mem_nil, or_false]
    tauto
  · simp only [Arc.svgSpans, if_neg hc, List.mem_cons, List.not_mem_nil, or_false]

/-- Counterexample to C7 as stated: at O=(0,0), C1=(1,0), C2=(1,1), E=(0,1) the flat
4-point form sets origin to (0,0) but the explicit forms leave the origin field
unassigned (the source's 3- and 4-argument cases never assign `this.origin`), so the
results are not field-for-field identical. -/
theorem bezierSeed_variants_counterexample :
    BezierSeed.fromPointArray [⟨0, 0⟩, ⟨1, 0⟩, ⟨1, 1⟩, ⟨0, 1⟩] ≠
      BezierSeed.fromQuadOrCubic ⟨0, 0⟩ (Sum.inr [⟨1, 0⟩, ⟨1, 1⟩]) ⟨0, 1⟩ ∧
    (BezierSeed.fromPointArray [⟨0, 0⟩, ⟨1, 0⟩, ⟨1, 1⟩, ⟨0, 1⟩]).origin =
      some ⟨0, 0⟩ ∧
    (BezierSeed.fromQuadOrCubic ⟨0, 0⟩ (Sum.inr [⟨1, 0⟩, ⟨1, 1⟩]) ⟨0, 1⟩).origin =
      none ∧
    (BezierSeed.fromCubicParams ⟨0, 0⟩ ⟨1, 0⟩ ⟨1, 1⟩ ⟨0, 1⟩).origin = none := by
  refine ⟨?_, rfl, rfl, rfl⟩
  decide

/-- C7 (amended): the explicit `(O, [C1, C2], E)` form and the explicit
`(O, C1, C2, E)` form yield field-for-field identical results - controls `[C1, C2]`,
end `E`, the bezier-seed type tag, and an unassigned origin - and the flat 4-point
sequence `[O, C1, C2, E]` agrees with them on controls, end and type, but differs on
origin: the flat form sets origin to `O` while both explicit forms leave the origin
field unassigned, since the source's 3- and 4-argument cases never assign it. -/
theorem bezierSeed_explicit_forms_agree (o c1 c2 e : Pt) :
    BezierSeed.fromQuadOrCubic o (Sum.inr [c1, c2]) e =
      BezierSeed.fromCubicParams o c1 c2 e ∧
    BezierSeed.fromCubicParams o c1 c2 e =
      ⟨pathType.BezierSeed, none, some e, some [c1, c2]⟩ ∧
    BezierSeed.fromPointArray [o, c1, c2, e] =
      ⟨pathType.BezierSeed, some o, some e, some [c1, c2]⟩ ∧
    (BezierSeed.fromPointArray [o, c1, c2, e]).controls =
      (BezierSeed.fromCubicParams o c1 c2 e).controls ∧
    (BezierSeed.fromPointArray [o, c1, c2, e]).endP =
      (BezierSeed.fromCubicParams o c1 c2 e).endP ∧
    (BezierSeed.fromPointArray [o, c1, c2, e]).type =
      (BezierSeed.fromCubicParams o c1 c2 e).type ∧
    (BezierSeed.fromPointArray [o, c1, c2, e]).origin = some o ∧
    (BezierSeed.fromCubicParams o c1 c2 e).origin = none :=
  ⟨rfl, rfl, rfl, rfl, rfl, rfl, rfl, rfl⟩

/-- C9: a bezier seed built from a flat point array whose length is neither 3 nor 4
(length 2, lengths 5 and above, and the shorter degenerate arrays) has origin
`points[0]`, end `points[1]`, and its controls field left unassigned - not set to an
empty sequence. -/
theorem bezierSeed_controls_unassigned (points : List Pt) (h3 : points.length ≠ 3)
    (h4 : points.length ≠ 4) :
    BezierSeed.fromPointArray points =
      ⟨pathType.BezierSeed, points[0]?, points[1]?, none⟩ := by
  rcases points with _ | ⟨p0, _ | ⟨p1, _ | ⟨p2, _ | ⟨p3, _ | ⟨p4, rest⟩⟩⟩⟩⟩
  · rfl
  · rfl
  · rfl
  · exact absurd rfl h3
  · exact absurd rfl h4
  · rfl

/-- Witness for C9: the length-2 array `[(0,0), (1,0)]` is neither length 3 nor 4 and
produces origin `(0,0)`, end `(1,0)` and an unassigned controls field. -/
theorem bezierSeed_controls_unassigned_witness :
    ([⟨0, 0⟩, ⟨1, 0⟩] : List Pt).length ≠ 3 ∧
    ([⟨0, 0⟩, ⟨1, 0⟩] : List Pt).length ≠ 4 ∧
    BezierSeed.fromPointArray [⟨0, 0⟩, ⟨1, 0⟩] =
      ⟨pathType.BezierSeed, some ⟨0, 0⟩, some ⟨1, 0⟩, none⟩ :=
  ⟨by decide, by decide,
    bezierSeed_controls_unassigned [⟨0, 0⟩, ⟨1, 0⟩] (by decide) (by decide)⟩

/-- C10: every Chord and every Parallel carries the Line path-type discriminant - the
same tag a plain Line carries, distinct from the circle, arc and bezier-seed tags -
so after construction a chord or parallel is indistinguishable by tag from a plain
line. -/
theorem chord_and_parallel_are_lines (u : GeomUtils) (arcO lo le np o e : Pt)
    (r s ed d : ℚ) :
    (Chord.fromArc u arcO r s ed).type = pathType.Line ∧
    (Parallel.make u lo le d np).type = pathType.Line ∧
    (Line.make o e).type = pathType.Line ∧
    (Chord.fromArc u arcO r s ed).type = (Line.make o e).type ∧
    (Parallel.make u lo le d np).type = (Line.make o e).type ∧
    pathType.Line ≠ pathType.Circle ∧ pathType.Line ≠ pathType.Arc ∧
    pathType.Line ≠ pathType.BezierSeed := by
  refine ⟨rfl, rfl, rfl, rfl, rfl, ?_, ?_, ?_⟩ <;> decide

/-- C6: in the two-point arc variant the clockwise flag selects which endpoint
provides the start angle and which the end angle (flipping the flag swaps them and
leaves the center unchanged), and in the SVG variant every candidate span takes its
start angle from the flag-selected endpoint and its end angle from the other endpoint
(possibly bumped by 360 by the span adjustment), while the set of candidate centers
is the two intersection points for either flag value. -/
theorem clockwise_swaps_endpoints (u : GeomUtils) (a b : Pt) (pts : Pt × Pt) :
    ((Arc.from2Points u a b false).startAngle =
        some (u.ofPointInDegrees (point.average a b) a) ∧
      (Arc.from2Points u a b false).endAngle =
        some (u.ofPointInDegrees (point.average a b) b) ∧
      (Arc.from2Points u a b true).startAngle =
        (Arc.from2Points u a b false).endAngle ∧
      (Arc.from2Points u a b true).endAngle =
        (Arc.from2Points u a b false).startAngle ∧
      (Arc.from2Points u a b true).origin = (Arc.from2Points u a b false).origin) ∧
    (∀ cw : Bool, ∀ sp ∈ Arc.svgSpans u a b cw pts,
      sp.startAngle = u.ofPointInDegrees sp.origin (if cw then b else a) ∧
      (sp.endAngle = u.ofPointInDegrees sp.origin (if cw then a else b) ∨
        sp.endAngle = u.ofPointInDegrees sp.origin (if cw then a else b) + 360)) ∧
    (∀ cw : Bool, ∀ p : Pt,
      p ∈ (Arc.svgSpans u a b cw pts).map IArcSpan.origin ↔
        (p = pts.1 ∨ p = pts.2)) := by
  refine ⟨⟨rfl, rfl, rfl, rfl, rfl⟩, ?_, ?_⟩
  · intro cw sp hsp
    rcases (mem_svgSpans u a b cw pts sp).1 hsp with h | h <;> subst h
    · obtain ⟨ho, hs, he, _⟩ := svgSpan_fields u a b cw pts.1
      rw [ho]
      exact ⟨hs, he⟩
    · obtain ⟨ho, hs, he, _⟩ := svgSpan_fields u a b cw pts.2
      rw [ho]
      exact ⟨hs, he⟩
  · intro cw p
    by_cases hc : (Arc.svgSpan u a b cw pts.1).size > (Arc.svgSpan u a b cw pts.2).size
    · simp only [Arc.svgSpans, if_pos hc, List.map_cons, List.map_nil, List.mem_cons,
        List.not_mem_nil, or_false, (svgSpan_fields u a b cw pts.1).1,
        (svgSpan_fields u a b cw pts.2).1]
      tauto
    · simp only [Arc.svgSpans, if_neg hc, List.map_cons, List.map_nil, List.mem_cons,
        List.not_mem_nil, or_false, (svgSpan_fields u a b cw pts.1).1,
        (svgSpan_fields u a b cw pts.2).1]

/-- Concrete geometry-utility instance for the Parallel scenarios: the lines used are
horizontal (angle 0 degrees), angles are carried through an identity `toRadians`
encoding so that `fromPolar` can return the exact unit offsets - down `(0,-d)` for
-90 degrees and up `(0,d)` for +90 degrees - and nearness is measured by squared
Euclidean distance, which orders distances exactly as true Euclidean distance does. -/
def uC2 : GeomUtils where
  ofPointInDegrees := fun _ _ => 0
  ofLineInDegrees := fun _ _ => 0
  toRadians := fun q => q
  fromPolar := fun ang d => if ang = -90 then ⟨0, -d⟩ else if ang = 90 then ⟨0, d⟩ else ⟨d, 0⟩
  pointDistance := sqDist
  circleIntersection := fun _ _ _ _ => none
  fromArc := fun _ _ _ _ => (⟨0, 0⟩, ⟨0, 0⟩)

/-- Counterexample to C2 as stated: for the line from (0,0) to (2,0) with distance 1
and near point (1,0) on the line itself, the two candidate origins (0,-1) (the -90
degree offset) and (0,1) (the +90 degree offset) are exactly equidistant from the
near point, yet the constructed parallel's origin is the second (+90) candidate
(0,1), not the first (-90) candidate as the claim requires. -/
theorem parallel_tie_counterexample :
    (Parallel.getNewOrigin uC2 ⟨0, 0⟩ (uC2.ofLineInDegrees ⟨0, 0⟩ ⟨2, 0⟩) 1 ⟨1, 0⟩
        (-90)).1 = ⟨0, -1⟩ ∧
    (Parallel.getNewOrigin uC2 ⟨0, 0⟩ (uC2.ofLineInDegrees ⟨0, 0⟩ ⟨2, 0⟩) 1 ⟨1, 0⟩
        90).1 = ⟨0, 1⟩ ∧
    (Parallel.getNewOrigin uC2 ⟨0, 0⟩ (uC2.ofLineInDegrees ⟨0, 0⟩ ⟨2, 0⟩) 1 ⟨1, 0⟩
        (-90)).2 =
      (Parallel.getNewOrigin uC2 ⟨0, 0⟩ (uC2.ofLineInDegrees ⟨0, 0⟩ ⟨2, 0⟩) 1 ⟨1, 0⟩
        90).2 ∧
    (Parallel.make uC2 ⟨0, 0⟩ ⟨2, 0⟩ 1 ⟨1, 0⟩).origin = ⟨0, 1⟩ ∧
    (⟨0, 1⟩ : Pt) ≠ ⟨0, -1⟩ := by
  refine ⟨?_, ?_, ?_, ?_, ?_⟩ <;>
    norm_num [uC2, Parallel.getNewOrigin, Parallel.make, point.add, point.clone,
      path.moveLine, sqDist, Pt.mk.injEq]

/-- C2 (amended): of the two candidate origins (offset -90 and +90 degrees from the
line's angle by the distance), the one strictly closer to the near point is selected;
when both candidates are exactly equidistant from the near point, the second
candidate (the +90 degree offset) is selected, because the selection rule's strict
less-than comparison fails on ties. -/
theorem parallel_selects_by_nearness (u : GeomUtils) (toLineO toLineE : Pt)
    (distance : ℚ) (nearPoint : Pt) :
    ((Parallel.getNewOrigin u toLineO (u.ofLineInDegrees toLineO toLineE) distance
          nearPoint (-90)).2 <
        (Parallel.getNewOrigin u toLineO (u.ofLineInDegrees toLineO toLineE) distance
          nearPoint 90).2 →
      (Parallel.make u toLineO toLineE distance nearPoint).origin =
        (Parallel.getNewOrigin u toLineO (u.ofLineInDegrees toLineO toLineE) distance
          nearPoint (-90)).1) ∧
    ((Parallel.getNewOrigin u toLineO (u.ofLineInDegrees toLineO toLineE) distance
          nearPoint 90).2 <
        (Parallel.getNewOrigin u toLineO (u.ofLineInDegrees toLineO toLineE) distance
          nearPoint (-90)).2 →
      (Parallel.make u toLineO toLineE distance nearPoint).origin =
        (Parallel.getNewOrigin u toLineO (u.ofLineInDegrees toLineO toLineE) distance
          nearPoint 90).1) ∧
    ((Parallel.getNewOrigin u toLineO (u.ofLineInDegrees toLineO toLineE) distance
          nearPoint (-90)).2 =
        (Parallel.getNewOrigin u toLineO (u.ofLineInDegrees toLineO toLineE) distance
          nearPoint 90).2 →
      (Parallel.make u toLineO toLineE distance nearPoint).origin =
        (Parallel.getNewOrigin u toLineO (u.ofLineInDegrees toLineO toLineE) distance
          nearPoint 90).1) := by
  refine ⟨?_, ?_, ?_⟩ <;> intro h <;>
    simp only [Parallel.make, point.clone, path.moveLine]
  · rw [if_pos h]
  · rw [if_neg (by exact not_lt_of_gt h)]
  · rw [if_neg (by rw [h]; exact lt_irrefl _)]

/-- Witness for the amended C2: at the tie input (line (0,0)-(2,0), distance 1, near
point (1,0)) the +90 candidate (0,1) is selected, and at the strict input (near point
(1,-5), closer to the lower half-plane) the -90 candidate (0,-1) is selected. -/
theorem parallel_selects_by_nearness_witness :
    ((Parallel.getNewOrigin uC2 ⟨0, 0⟩ (uC2.ofLineInDegrees ⟨0, 0⟩ ⟨2, 0⟩) 1 ⟨1, 0⟩
          (-90)).2 =
        (Parallel.getNewOrigin uC2 ⟨0, 0⟩ (uC2.ofLineInDegrees ⟨0, 0⟩ ⟨2, 0⟩) 1 ⟨1, 0⟩
          90).2 ∧
      (Parallel.make uC2 ⟨0, 0⟩ ⟨2, 0⟩ 1 ⟨1, 0⟩).origin =
        (Parallel.getNewOrigin uC2 ⟨0, 0⟩ (uC2.ofLineInDegrees ⟨0, 0⟩ ⟨2, 0⟩) 1 ⟨1, 0⟩
          90).1) ∧
    ((Parallel.getNewOrigin uC2 ⟨0, 0⟩ (uC2.ofLineInDegrees ⟨0, 0⟩ ⟨2, 0⟩) 1 ⟨1, -5⟩
          (-90)).2 <
        (Parallel.getNewOrigin uC2 ⟨0, 0⟩ (uC2.ofLineInDegrees ⟨0, 0⟩ ⟨2, 0⟩) 1 ⟨1, -5⟩
          90).2 ∧
      (Parallel.make uC2 ⟨0, 0⟩ ⟨2, 0⟩ 1 ⟨1, -5⟩).origin =
        (Parallel.getNewOrigin uC2 ⟨0, 0⟩ (uC2.ofLineInDegrees ⟨0, 0⟩ ⟨2, 0⟩) 1 ⟨1, -5⟩
          (-90)).1) :=
  ⟨⟨by norm_num [uC2, Parallel.getNewOrigin, point.add, sqDist],
      (parallel_selects_by_nearness uC2 ⟨0, 0⟩ ⟨2, 0⟩ 1 ⟨1, 0⟩).2.2
        (by norm_num [uC2, Parallel.getNewOrigin, point.add, sqDist])⟩,
    ⟨by norm_num [uC2, Parallel.getNewOrigin, point.add, sqDist],
      (parallel_selects_by_nearness uC2 ⟨0, 0⟩ ⟨2, 0⟩ 1 ⟨1, -5⟩).1
        (by norm_num [uC2, Parallel.getNewOrigin, point.add, sqDist])⟩⟩

/-- Concrete geometry-utility instance for the degenerate constructions: the circle
intersection reports no intersection (which is geometrically correct for the circles
of radius 1 centered at (0,0) and (4,0), whose centers are 4 > 2 apart), and the
remaining members are unused by the degenerate paths. -/
def uC3 : GeomUtils where
  ofPointInDegrees := fun _ _ => 0
  ofLineInDegrees := fun _ _ => 0
  toRadians := fun q => q
  fromPolar := fun _ d => ⟨d, 0⟩
  pointDistance := sqDist
  circleIntersection := fun _ _ _ _ => none
  fromArc := fun _ _ _ _ => (⟨0, 0⟩, ⟨0, 0⟩)

/-- Counterexample to C3 as stated: the SVG-style arc with endpoints (0,0) and (4,0)
and radius 1 - too small for the chord, so the radius-circles do not intersect - does
not fail explicitly: it returns an arc object whose radius and type fields are
populated while origin, startAngle and endAngle are missing, exactly the
partially-populated value the claim rules out. -/
theorem degenerate_svg_arc_counterexample :
    Arc.fromSvg uC3 ⟨0, 0⟩ ⟨4, 0⟩ 1 false false =
      ⟨none, some 1, none, none, pathType.Arc⟩ ∧
    (Arc.fromSvg uC3 ⟨0, 0⟩ ⟨4, 0⟩ 1 false false).origin = none ∧
    (Arc.fromSvg uC3 ⟨0, 0⟩ ⟨4, 0⟩ 1 false false).radius = some 1 ∧
    (Arc.fromSvg uC3 ⟨0, 0⟩ ⟨4, 0⟩ 1 false false).type = pathType.Arc := by
  refine ⟨?_, ?_, ?_, ?_⟩ <;> decide

/-- C3 (amended): the two degenerate cases behave differently: the three-point circle
(and hence the three-point arc built on it) yields no value when the perpendicular
bisectors have no slope intersection (collinear points), while the SVG-style arc
whose radius-circles do not intersect does not fail - it returns a
partially-populated arc with radius and type set and origin, startAngle and endAngle
left unassigned. -/
theorem degenerate_input_behavior :
    (∀ (u : GeomUtils) (a b : Pt) (r : ℚ) (la cw : Bool),
      u.circleIntersection a r b r = none →
      Arc.fromSvg u a b r la cw = ⟨none, some r, none, none, pathType.Arc⟩) ∧
    (∀ (u : GeomUtils) (a b c : Pt),
      point.fromSlopeIntersection (path.rotate90 (point.average b c) b)
          (path.rotate90 (point.average b c) c)
          (path.rotate90 (point.average a b) a)
          (path.rotate90 (point.average a b) b) = none →
      Circle.from3Points u a b c = none ∧ Arc.from3Points u a b c = none) := by
  constructor
  · intro u a b r la cw h
    simp only [Arc.fromSvg, h]
  · intro u a b c h
    have hc : Circle.from3Points u a b c = none := by
      simp only [Circle.from3Points, h]
    exact ⟨hc, by simp only [Arc.from3Points, hc]⟩

/-- Witness for the amended C3: radius 1 is insufficient for endpoints (0,0) and
(4,0), and the collinear points (0,0), (1,0), (2,0) make both perpendicular bisectors
vertical, so the slope intersection has no result. -/
theorem degenerate_input_behavior_witness :
    (uC3.circleIntersection ⟨0, 0⟩ 1 ⟨4, 0⟩ 1 = none ∧
      Arc.fromSvg uC3 ⟨0, 0⟩ ⟨4, 0⟩ 1 true false =
        ⟨none, some 1, none, none, pathType.Arc⟩) ∧
    (point.fromSlopeIntersection
        (path.rotate90 (point.average ⟨1, 0⟩ ⟨2, 0⟩) ⟨1, 0⟩)
        (path.rotate90 (point.average ⟨1, 0⟩ ⟨2, 0⟩) ⟨2, 0⟩)
        (path.rotate90 (point.average ⟨0, 0⟩ ⟨1, 0⟩) ⟨0, 0⟩)
        (path.rotate90 (point.average ⟨0, 0⟩ ⟨1, 0⟩) ⟨1, 0⟩) = none ∧
      Circle.from3Points uC3 ⟨0, 0⟩ ⟨1, 0⟩ ⟨2, 0⟩ = none ∧
      Arc.from3Points uC3 ⟨0, 0⟩ ⟨1, 0⟩ ⟨2, 0⟩ = none) :=
  ⟨⟨by decide, degenerate_input_behavior.1 uC3 ⟨0, 0⟩ ⟨4, 0⟩ 1 true false (by decide)⟩,
    ⟨by norm_num [point.fromSlopeIntersection, path.rotate90, point.average],
      degenerate_input_behavior.2 uC3 ⟨0, 0⟩ ⟨1, 0⟩ ⟨2, 0⟩
        (by norm_num [point.fromSlopeIntersection, path.rotate90, point.average])⟩⟩

theorem fromSlopeIntersection_on_lines (l1o l1e l2o l2e p : Pt)
    (h : point.fromSlopeIntersection l1o l1e l2o l2e = some p) :
    (∃ t : ℚ, p.x = l1o.x + t * (l1e.x - l1o.x) ∧ p.y = l1o.y + t * (l1e.y - l1o.y)) ∧
    (∃ s : ℚ, p.x = l2o.x + s * (l2e.x - l2o.x) ∧ p.y = l2o.y + s * (l2e.y - l2o.y)) := by
  simp only [point.fromSlopeIntersection] at h
  by_cases hdet : (l1e.x - l1o.x) * (l2e.y - l2o.y) - (l1e.y - l1o.y) * (l2e.x - l2o.x) = 0
  · rw [if_pos hdet] at h
    exact absurd h (by simp)
  · rw [if_neg hdet] at h
    simp only [Option.some.injEq] at h
    subst h
    constructor
    · exact ⟨((l2o.x - l1o.x) * (l2e.y - l2o.y) - (l2o.y - l1o.y) * (l2e.x - l2o.x)) /
          ((l1e.x - l1o.x) * (l2e.y - l2o.y) - (l1e.y - l1o.y) * (l2e.x - l2o.x)),
        rfl, rfl⟩
    · refine ⟨((l2o.x - l1o.x) * (l1e.y - l1o.y) - (l2o.y - l1o.y) * (l1e.x - l1o.x)) /
          ((l1e.x - l1o.x) * (l2e.y - l2o.y) - (l1e.y - l1o.y) * (l2e.x - l2o.x)),
        ?_, ?_⟩ <;>
      · field_simp
        ring

theorem onPerpBisector_equidistant (X Y p : Pt) (t : ℚ)
    (hx : p.x = (path.rotate90 (point.average X Y) X).x +
      t * ((path.rotate90 (point.average X Y) Y).x -
        (path.rotate90 (point.average X Y) X).x))
    (hy : p.y = (path.rotate90 (point.average X Y) X).y +
      t * ((path.rotate90 (point.average X Y) Y).y -
        (path.rotate90 (point.average X Y) X).y)) :
    sqDist p X = sqDist p Y := by
  simp only [path.rotate90, point.average] at hx hy
  rw [sqDist, sqDist, hx, hy]
  ring

/-- C5: for a circle constructed from three points whose perpendicular-bisector slope
intersection exists (the non-collinear case), the resulting origin is equidistant
from all three points - stated exactly through squared distances and, for any
distance function that respects squared-distance equality (as Euclidean distance
does), through the distance function itself - and the radius field equals that common
distance, being the distance from the origin to the first point. -/
theorem circle_from3Points_equidistant (u : GeomUtils) (a b c : Pt) (circ : CircleObj)
    (hd : ∀ p q r s : Pt, sqDist p q = sqDist r s →
      u.pointDistance p q = u.pointDistance r s)
    (h : Circle.from3Points u a b c = some circ) :
    sqDist circ.origin a = sqDist circ.origin b ∧
    sqDist circ.origin b = sqDist circ.origin c ∧
    u.pointDistance circ.origin a = u.pointDistance circ.origin b ∧
    u.pointDistance circ.origin b = u.pointDistance circ.origin c ∧
    circ.radius = u.pointDistance circ.origin a := by
  simp only [Circle.from3Points] at h
  rcases hI : point.fromSlopeIntersection (path.rotate90 (point.average b c) b)
      (path.rotate90 (point.average b c) c) (path.rotate90 (point.average a b) a)
      (path.rotate90 (point.average a b) b) with _ | O
  · rw [hI] at h
    exact absurd h (by simp)
  · rw [hI] at h
    simp only [Option.some.injEq] at h
    subst h
    obtain ⟨⟨t, htx, hty⟩, ⟨s, hsx, hsy⟩⟩ := fromSlopeIntersection_on_lines _ _ _ _ _ hI
    have hbc : sqDist O b = sqDist O c := onPerpBisector_equidistant b c O t htx hty
    have hab : sqDist O a = sqDist O b := onPerpBisector_equidistant a b O s hsx hsy
    exact ⟨hab, hbc, hd _ _ _ _ hab, hd _ _ _ _ hbc, rfl⟩

/-- Concrete geometry-utility instance for the circumcircle scenario: distance is
measured as squared Euclidean distance, which trivially respects squared-distance
equality; the remaining members are unused by the three-point circle. -/
def uC5 : GeomUtils where
  ofPointInDegrees := fun _ _ => 0
  ofLineInDegrees := fun _ _ => 0
  toRadians := fun q => q
  fromPolar := fun _ d => ⟨d, 0⟩
  pointDistance := sqDist
  circleIntersection := fun _ _ _ _ => none
  fromArc := fun _ _ _ _ => (⟨0, 0⟩, ⟨0, 0⟩)

/-- Witness for C5: the three points (0,0), (2,0), (0,2) produce the circumcenter
(1,1), equidistant from all three, with the radius field that common distance. -/
theorem circle_from3Points_equidistant_witness :
    Circle.from3Points uC5 ⟨0, 0⟩ ⟨2, 0⟩ ⟨0, 2⟩ =
      some ⟨pathType.Circle, ⟨1, 1⟩, 2⟩ ∧
    sqDist (⟨1, 1⟩ : Pt) ⟨0, 0⟩ = sqDist (⟨1, 1⟩ : Pt) ⟨2, 0⟩ ∧
    sqDist (⟨1, 1⟩ : Pt) ⟨2, 0⟩ = sqDist (⟨1, 1⟩ : Pt) ⟨0, 2⟩ ∧
    uC5.pointDistance (⟨1, 1⟩ : Pt) ⟨0, 0⟩ = uC5.pointDistance (⟨1, 1⟩ : Pt) ⟨2, 0⟩ ∧
    (2 : ℚ) = uC5.pointDistance (⟨1, 1⟩ : Pt) ⟨0, 0⟩ := by
  have h : Circle.from3Points uC5 ⟨0, 0⟩ ⟨2, 0⟩ ⟨0, 2⟩ =
      some ⟨pathType.Circle, ⟨1, 1⟩, 2⟩ := by
    norm_num [Circle.from3Points, point.fromSlopeIntersection, path.rotate90,
      point.average, uC5, sqDist, Pt.mk.injEq, CircleObj.mk.injEq, Option.some.injEq]
  obtain ⟨h1, h2, h3, h4, h5⟩ :=
    circle_from3Points_equidistant uC5 ⟨0, 0⟩ ⟨2, 0⟩ ⟨0, 2⟩
      ⟨pathType.Circle, ⟨1, 1⟩, 2⟩ (fun p q r s hpq => hpq) h
  exact ⟨h, h1, h2, h3, h5⟩

theorem noRevolutions_sub_congr (x y : ℚ) :
    angle.noRevolutions (x - y) =
      angle.noRevolutions (angle.noRevolutions x - angle.noRevolutions y) := by
  have hx := angle.noRevolutions_decompose x
  have hy := angle.noRevolutions_decompose y
  have e : x - y = (angle.noRevolutions x - angle.noRevolutions y) +
      360 * ((⌊x / 360⌋ - ⌊y / 360⌋ : ℤ) : ℚ) := by
    rw [Int.cast_sub]
    linarith
  rw [e]
  exact angle.noRevolutions_add_int _ _

theorem isBetween_swap (al be ga : ℚ) (ha0 : 0 ≤ al) (ha1 : al < 360) (hb0 : 0 ≤ be)
    (hb1 : be < 360) (hg0 : 0 ≤ ga) (hg1 : ga < 360) (hne : al ≠ ga)
    (h : measure.isBetweenArcAngles be al ga false = false) :
    measure.isBetweenArcAngles be ga al false = true := by
  simp only [measure.isBetweenArcAngles, Bool.false_eq_true, if_false,
    decide_eq_false_iff_not, decide_eq_true_eq] at h ⊢
  push_neg at h
  have hvne : angle.noRevolutions (ga - al) ≠ 0 :=
    angle.noRevolutions_ne_zero _ (by linarith) (by linarith)
      (sub_ne_zero.mpr (Ne.symm hne))
  have hu1 : angle.noRevolutions (be - al) < 360 := angle.noRevolutions_lt _
  have hv0 : 0 ≤ angle.noRevolutions (ga - al) := angle.noRevolutions_nonneg _
  have hlhs : angle.noRevolutions (be - ga) =
      angle.noRevolutions (be - al) - angle.noRevolutions (ga - al) := by
    have e : be - ga = (be - al) - (ga - al) := by ring
    rw [e, noRevolutions_sub_congr]
    exact angle.noRevolutions_eq_self _ (by linarith) (by linarith)
  have hrhs : angle.noRevolutions (al - ga) = 360 - angle.noRevolutions (ga - al) := by
    have e : al - ga = -(ga - al) := by ring
    rw [e]
    exact angle.noRevolutions_neg _ hvne
  rw [hlhs, hrhs]
  linarith

/-- C4: for an arc constructed from three points whose circumcircle derivation
succeeds, with the three angles seen from the circumcenter in [0, 360) and the angles
of the first and third point distinct, the returned arc's start and end angles are
the angles of the first and third point - swapped exactly when the middle point's
angle is not within the tentative span - so that the middle (through) point's angle
always lies within the span of the returned arc. -/
theorem arc_from3Points_contains_through_point (u : GeomUtils) (a b c : Pt)
    (circ : CircleObj) (hcirc : Circle.from3Points u a b c = some circ)
    (h00 : 0 ≤ u.ofPointInDegrees circ.origin a)
    (h01 : u.ofPointInDegrees circ.origin a < 360)
    (h10 : 0 ≤ u.ofPointInDegrees circ.origin b)
    (h11 : u.ofPointInDegrees circ.origin b < 360)
    (h20 : 0 ≤ u.ofPointInDegrees circ.origin c)
    (h21 : u.ofPointInDegrees circ.origin c < 360)
    (hne : u.ofPointInDegrees circ.origin a ≠ u.ofPointInDegrees circ.origin c) :
    ∃ s e : ℚ,
      Arc.from3Points u a b c =
        some ⟨some circ.origin, some circ.radius, some s, some e, pathType.Arc⟩ ∧
      ((s = u.ofPointInDegrees circ.origin a ∧ e = u.ofPointInDegrees circ.origin c) ∨
        (s = u.ofPointInDegrees circ.origin c ∧ e = u.ofPointInDegrees circ.origin a)) ∧
      measure.isBetweenArcAngles (u.ofPointInDegrees circ.origin b) s e false = true := by
  by_cases hbet : measure.isBetweenArcAngles (u.ofPointInDegrees circ.origin b)
      (u.ofPointInDegrees circ.origin a) (u.ofPointInDegrees circ.origin c) false = true
  · refine ⟨u.ofPointInDegrees circ.origin a, u.ofPointInDegrees circ.origin c, ?_,
      Or.inl ⟨rfl, rfl⟩, hbet⟩
    simp only [Arc.from3Points, hcirc, hbet, if_true]
  · refine ⟨u.ofPointInDegrees circ.origin c, u.ofPointInDegrees circ.origin a, ?_,
      Or.inr ⟨rfl, rfl⟩, ?_⟩
    · simp only [Arc.from3Points, hcirc]
      rw [if_neg hbet]
    · exact isBetween_swap _ _ _ h00 h01 h10 h11 h20 h21 hne
        (by rwa [Bool.not_eq_true] at hbet)

/-- Concrete geometry-utility instance for the three-point arc scenario: the angle
member returns the true angles, as seen from the circumcenter (1,1) of the three
points used, of the first point (0,0) (225 degrees), middle point (2,0) (315
degrees) and third point (0,2) (135 degrees); distance is squared Euclidean. -/
def uC4 : GeomUtils where
  ofPointInDegrees := fun _ p =>
    if p = ⟨0, 0⟩ then 225 else if p = ⟨2, 0⟩ then 315 else 135
  ofLineInDegrees := fun _ _ => 0
  toRadians := fun q => q
  fromPolar := fun _ d => ⟨d, 0⟩
  pointDistance := sqDist
  circleIntersection := fun _ _ _ _ => none
  fromArc := fun _ _ _ _ => (⟨0, 0⟩, ⟨0, 0⟩)

/-- Witness for C4: the arc through (0,0), (2,0), (0,2) has circumcenter (1,1); the
middle point's 315-degree angle lies within the tentative span from 225 to 135
degrees, so no swap occurs and the returned arc contains the through point. -/
theorem arc_from3Points_contains_through_point_witness :
    Circle.from3Points uC4 ⟨0, 0⟩ ⟨2, 0⟩ ⟨0, 2⟩ =
      some ⟨pathType.Circle, ⟨1, 1⟩, 2⟩ ∧
    uC4.ofPointInDegrees (⟨1, 1⟩ : Pt) ⟨0, 0⟩ = 225 ∧
    uC4.ofPointInDegrees (⟨1, 1⟩ : Pt) ⟨2, 0⟩ = 315 ∧
    uC4.ofPointInDegrees (⟨1, 1⟩ : Pt) ⟨0, 2⟩ = 135 ∧
    (∃ s e : ℚ,
      Arc.from3Points uC4 ⟨0, 0⟩ ⟨2, 0⟩ ⟨0, 2⟩ =
        some ⟨some ⟨1, 1⟩, some 2, some s, some e, pathType.Arc⟩ ∧
      ((s = uC4.ofPointInDegrees (⟨1, 1⟩ : Pt) ⟨0, 0⟩ ∧
          e = uC4.ofPointInDegrees (⟨1, 1⟩ : Pt) ⟨0, 2⟩) ∨
        (s = uC4.ofPointInDegrees (⟨1, 1⟩ : Pt) ⟨0, 2⟩ ∧
          e = uC4.ofPointInDegrees (⟨1, 1⟩ : Pt) ⟨0, 0⟩)) ∧
      measure.isBetweenArcAngles (uC4.ofPointInDegrees (⟨1, 1⟩ : Pt) ⟨2, 0⟩) s e
        false = true) := by
  have hcirc : Circle.from3Points uC4 ⟨0, 0⟩ ⟨2, 0⟩ ⟨0, 2⟩ =
      some ⟨pathType.Circle, ⟨1, 1⟩, 2⟩ := by
    norm_num [Circle.from3Points, point.fromSlopeIntersection, path.rotate90,
      point.average, uC4, sqDist, Pt.mk.injEq, CircleObj.mk.injEq]
  refine ⟨hcirc, by norm_num [uC4, Pt.mk.injEq], by norm_num [uC4, Pt.mk.injEq],
    by norm_num [uC4, Pt.mk.injEq], ?_⟩
  exact arc_from3Points_contains_through_point uC4 ⟨0, 0⟩ ⟨2, 0⟩ ⟨0, 2⟩
    ⟨pathType.Circle, ⟨1, 1⟩, 2⟩ hcirc (by norm_num [uC4, Pt.mk.injEq])
    (by norm_num [uC4, Pt.mk.injEq]) (by norm_num [uC4, Pt.mk.injEq])
    (by norm_num [uC4, Pt.mk.injEq]) (by norm_num [uC4, Pt.mk.injEq])
    (by norm_num [uC4, Pt.mk.injEq]) (by norm_num [uC4, Pt.mk.injEq])

theorem spanSizes_sum (sA eA sB eB : ℚ) (hsA0 : 0 ≤ sA) (hsA1 : sA < 360)
    (heA0 : 0 ≤ eA) (heA1 : eA < 360) (hne : sA ≠ eA)
    (hmirror : angle.noRevolutions (sA + sB) = angle.noRevolutions (eA + eB)) :
    angle.noRevolutions (eA - sA) + angle.noRevolutions (eB - sB) = 360 := by
  have hk : eB - sB = (sA - eA) + 360 * ((⌊(eA + eB) / 360⌋ - ⌊(sA + sB) / 360⌋ : ℤ) : ℚ) := by
    have hm := hmirror
    unfold angle.noRevolutions at hm
    rw [Int.cast_sub]
    linarith
  have h2 : angle.noRevolutions (eB - sB) = angle.noRevolutions (sA - eA) := by
    rw [hk]
    exact angle.noRevolutions_add_int _ _
  have h3 : angle.noRevolutions (eA - sA) ≠ 0 :=
    angle.noRevolutions_ne_zero _ (by linarith) (by linarith)
      (sub_ne_zero.mpr (Ne.symm hne))
  have h4 : angle.noRevolutions (sA - eA) = 360 - angle.noRevolutions (eA - sA) := by
    have e : sA - eA = -(eA - sA) := by ring
    rw [e]
    exact angle.noRevolutions_neg _ h3
  rw [h2, h4]
  ring

/-- C1: for an SVG-style arc construction whose radius-circles intersect in the two
candidate centers, with the candidate angles in [0, 360), the first candidate's start
and end angles distinct, and the two candidates' angles mirror-symmetric across the
chord (the sums of the two start angles and of the two end angles agree up to full
revolutions, which is how reflection acts on atan2-style angles): every candidate's
size is its (360-adjusted) end angle minus its start angle and is non-negative, the
two candidates are listed ascending by span size, and the constructor selects index 0
with span at most 180 degrees when largeArc is false and index 1 with span at least
180 degrees when largeArc is true. -/
theorem svg_arc_span_selection (u : GeomUtils) (a b : Pt) (r : ℚ) (la cw : Bool)
    (q1 q2 : Pt) (sA eA sB eB : ℚ)
    (hint : u.circleIntersection a r b r = some (q1, q2))
    (hsA : sA = u.ofPointInDegrees q2 (if cw then b else a))
    (heA : eA = u.ofPointInDegrees q2 (if cw then a else b))
    (hsB : sB = u.ofPointInDegrees q1 (if cw then b else a))
    (heB : eB = u.ofPointInDegrees q1 (if cw then a else b))
    (hsA0 : 0 ≤ sA) (hsA1 : sA < 360) (heA0 : 0 ≤ eA) (heA1 : eA < 360)
    (hsB0 : 0 ≤ sB) (hsB1 : sB < 360) (heB0 : 0 ≤ eB) (heB1 : eB < 360)
    (hne : sA ≠ eA)
    (hmirror : angle.noRevolutions (sA + sB) = angle.noRevolutions (eA + eB)) :
    ∃ sp0 sp1 : IArcSpan,
      Arc.svgSpans u a b cw (q1, q2) = [sp0, sp1] ∧
      sp0.size = sp0.endAngle - sp0.startAngle ∧
      sp1.size = sp1.endAngle - sp1.startAngle ∧
      0 ≤ sp0.size ∧ sp0.size ≤ sp1.size ∧
      sp0.size ≤ 180 ∧ 180 ≤ sp1.size ∧
      Arc.fromSvg u a b r la cw =
        ⟨some (if la then sp1 else sp0).origin, some r,
          some (if la then sp1 else sp0).startAngle,
          some (if la then sp1 else sp0).endAngle, pathType.Arc⟩ := by
  have hA : Arc.svgSpan u a b cw q2 =
      ⟨q2, sA, if eA < sA then eA + 360 else eA, (if eA < sA then eA + 360 else eA) - sA⟩ := by
    simp only [Arc.svgSpan, ← hsA, ← heA]
  have hB : Arc.svgSpan u a b cw q1 =
      ⟨q1, sB, if eB < sB then eB + 360 else eB, (if eB < sB then eB + 360 else eB) - sB⟩ := by
    simp only [Arc.svgSpan, ← hsB, ← heB]
  have hAsz : (Arc.svgSpan u a b cw q2).size = angle.noRevolutions (eA - sA) := by
    rw [hA]
    exact svgSpan_size_norm sA eA hsA0 hsA1 heA0 heA1
  have hBsz : (Arc.svgSpan u a b cw q1).size = angle.noRevolutions (eB - sB) := by
    rw [hB]
    exact svgSpan_size_norm sB eB hsB0 hsB1 heB0 heB1
  have hsum : angle.noRevolutions (eA - sA) + angle.noRevolutions (eB - sB) = 360 :=
    spanSizes_sum sA eA sB eB hsA0 hsA1 heA0 heA1 hne hmirror
  by_cases hcmp : (Arc.svgSpan u a b cw q1).size > (Arc.svgSpan u a b cw q2).size
  · refine ⟨Arc.svgSpan u a b cw q2, Arc.svgSpan u a b cw q1, ?_, rfl, rfl, ?_, ?_, ?_, ?_, ?_⟩
    · simp only [Arc.svgSpans]
      rw [if_pos hcmp]
    · rw [hAsz]
      exact angle.noRevolutions_nonneg _
    · exact le_of_lt hcmp
    · rw [hAsz]
      rw [hAsz, hBsz] at hcmp
      linarith
    · rw [hBsz]
      rw [hAsz, hBsz] at hcmp
      linarith
    · have hspans : Arc.svgSpans u a b cw (q1, q2) =
          [Arc.svgSpan u a b cw q2, Arc.svgSpan u a b cw q1] := by
        simp only [Arc.svgSpans]
        rw [if_pos hcmp]
      simp only [Arc.fromSvg, hint]
      rw [hspans]
      cases la <;> simp
  · refine ⟨Arc.svgSpan u a b cw q1, Arc.svgSpan u a b cw q2, ?_, rfl, rfl, ?_, ?_, ?_, ?_, ?_⟩
    · simp only [Arc.svgSpans]
      rw [if_neg hcmp]
    · rw [hBsz]
      exact angle.noRevolutions_nonneg _
    · exact le_of_not_lt hcmp
    · rw [hBsz]
      rw [hAsz, hBsz] at hcmp
      push_neg at hcmp
      linarith
    · rw [hAsz]
      rw [hAsz, hBsz] at hcmp
      push_neg at hcmp
      linarith
    · have hspans : Arc.svgSpans u a b cw (q1, q2) =
          [Arc.svgSpan u a b cw q1, Arc.svgSpan u a b cw q2] := by
        simp only [Arc.svgSpans]
        rw [if_neg hcmp]
      simp only [Arc.fromSvg, hint]
      rw [hspans]
      cases la <;> simp

/-- Concrete geometry-utility instance for the SVG span-selection scenario: the
radius-5/4 circles about (0,0) and (2,0) genuinely intersect at (1,-3/4) and
(1,3/4); the angle member returns values in [0, 360) that satisfy the mirror
relation (30 + 330 and 90 + 270 both reduce to 0 modulo 360). -/
def uC1 : GeomUtils where
  ofPointInDegrees := fun o p =>
    if o = ⟨1, 3 / 4⟩ then (if p = ⟨0, 0⟩ then 30 else 90)
    else (if p = ⟨0, 0⟩ then 330 else 270)
  ofLineInDegrees := fun _ _ => 0
  toRadians := fun q => q
  fromPolar := fun _ d => ⟨d, 0⟩
  pointDistance := sqDist
  circleIntersection := fun c1 r1 c2 r2 =>
    if c1 = ⟨0, 0⟩ ∧ r1 = 5 / 4 ∧ c2 = ⟨2, 0⟩ ∧ r2 = 5 / 4 then
      some (⟨1, -3 / 4⟩, ⟨1, 3 / 4⟩)
    else none
  fromArc := fun _ _ _ _ => (⟨0, 0⟩, ⟨0, 0⟩)

/-- Witness for C1: endpoints (0,0) and (2,0) with radius 5/4, candidate centers
(1,-3/4) and (1,3/4), candidate angles 30/90 and 330/270 (sizes 60 and 300), with
largeArc false and clockwise false. -/
theorem svg_arc_span_selection_witness :
    uC1.circleIntersection ⟨0, 0⟩ (5 / 4) ⟨2, 0⟩ (5 / 4) =
      some (⟨1, -3 / 4⟩, ⟨1, 3 / 4⟩) ∧
    (30 : ℚ) ≠ 90 ∧
    angle.noRevolutions ((30 : ℚ) + 330) = angle.noRevolutions ((90 : ℚ) + 270) ∧
    (∃ sp0 sp1 : IArcSpan,
      Arc.svgSpans uC1 ⟨0, 0⟩ ⟨2, 0⟩ false (⟨1, -3 / 4⟩, ⟨1, 3 / 4⟩) = [sp0, sp1] ∧
      sp0.size = sp0.endAngle - sp0.startAngle ∧
      sp1.size = sp1.endAngle - sp1.startAngle ∧
      0 ≤ sp0.size ∧ sp0.size ≤ sp1.size ∧
      sp0.size ≤ 180 ∧ 180 ≤ sp1.size ∧
      Arc.fromSvg uC1 ⟨0, 0⟩ ⟨2, 0⟩ (5 / 4) false false =
        ⟨some (if false then sp1 else sp0).origin, some (5 / 4),
          some (if false then sp1 else sp0).startAngle,
          some (if false then sp1 else sp0).endAngle, pathType.Arc⟩) := by
  refine ⟨by norm_num [uC1, Pt.mk.injEq], by norm_num,
    by norm_num [angle.noRevolutions], ?_⟩
  exact svg_arc_span_selection uC1 ⟨0, 0⟩ ⟨2, 0⟩ (5 / 4) false false
    ⟨1, -3 / 4⟩ ⟨1, 3 / 4⟩ 30 90 330 270
    (by norm_num [uC1, Pt.mk.injEq])
    (by norm_num [uC1, Pt.mk.injEq]) (by norm_num [uC1, Pt.mk.injEq])
    (by norm_num [uC1, Pt.mk.injEq]) (by norm_num [uC1, Pt.mk.injEq])
    (by norm_num) (by norm_num) (by norm_num) (by norm_num)
    (by norm_num) (by norm_num) (by norm_num) (by norm_num)
    (by norm_num) (by norm_num [angle.noRevolutions])

/-- Concrete geometry-utility instance for the boundary SVG arc: the circles of
radius 1 about (1,0) and (-1,0) are tangent, so the intersection is the single
degenerate double-root center (0,0), and the angle member returns the true angles of
(1,0) (0 degrees) and (-1,0) (180 degrees) from the origin. -/
def uC8 : GeomUtils where
  ofPointInDegrees := fun _ p => if p = ⟨1, 0⟩ then 0 else 180
  ofLineInDegrees := fun _ _ => 0
  toRadians := fun q => q
  fromPolar := fun _ d => ⟨d, 0⟩
  pointDistance := sqDist
  circleIntersection := fun _ _ _ _ => some (⟨0, 0⟩, ⟨0, 0⟩)
  fromArc := fun _ _ _ _ => (⟨0, 0⟩, ⟨0, 0⟩)

/-- C8: for the SVG-style arc with endpoints (1,0) and (-1,0) and radius 1 - radius
exactly half the chord, so the only candidate center is the double root (0,0) - both
values of the largeArc flag return the same 180-degree arc from angle 0 to angle 180
about (0,0), and every candidate span has origin (0,0) and span size 180. -/
theorem svg_arc_boundary_180 (u : GeomUtils)
    (h1 : u.circleIntersection ⟨1, 0⟩ 1 ⟨-1, 0⟩ 1 = some (⟨0, 0⟩, ⟨0, 0⟩))
    (h2 : u.ofPointInDegrees ⟨0, 0⟩ ⟨1, 0⟩ = 0)
    (h3 : u.ofPointInDegrees ⟨0, 0⟩ ⟨-1, 0⟩ = 180) :
    (∀ la : Bool, Arc.fromSvg u ⟨1, 0⟩ ⟨-1, 0⟩ 1 la false =
      ⟨some ⟨0, 0⟩, some 1, some 0, some 180, pathType.Arc⟩) ∧
    (∀ sp ∈ Arc.svgSpans u ⟨1, 0⟩ ⟨-1, 0⟩ false (⟨0, 0⟩, ⟨0, 0⟩),
      sp.origin = ⟨0, 0⟩ ∧ sp.size = 180 ∧ sp.endAngle - sp.startAngle = 180) := by
  have hsp : Arc.svgSpan u ⟨1, 0⟩ ⟨-1, 0⟩ false ⟨0, 0⟩ = ⟨⟨0, 0⟩, 0, 180, 180⟩ := by
    norm_num [Arc.svgSpan, h2, h3, IArcSpan.mk.injEq]
  have hspans : Arc.svgSpans u ⟨1, 0⟩ ⟨-1, 0⟩ false (⟨0, 0⟩, ⟨0, 0⟩) =
      [⟨⟨0, 0⟩, 0, 180, 180⟩, ⟨⟨0, 0⟩, 0, 180, 180⟩] := by
    norm_num [Arc.svgSpans, hsp]
  constructor
  · intro la
    simp only [Arc.fromSvg, h1]
    rw [hspans]
    cases la <;> simp
  · intro sp hsp'
    rw [hspans] at hsp'
    simp only [List.mem_cons, List.not_mem_nil, or_false, or_self] at hsp'
    subst hsp'
    exact ⟨rfl, rfl, by norm_num⟩

/-- Witness for C8: the concrete tangent-circle instance realizes the hypotheses, and
both largeArc values produce the identical 180-degree arc. -/
theorem svg_arc_boundary_180_witness :
    uC8.circleIntersection ⟨1, 0⟩ 1 ⟨-1, 0⟩ 1 = some (⟨0, 0⟩, ⟨0, 0⟩) ∧
    uC8.ofPointInDegrees ⟨0, 0⟩ ⟨1, 0⟩ = 0 ∧
    uC8.ofPointInDegrees ⟨0, 0⟩ ⟨-1, 0⟩ = 180 ∧
    Arc.fromSvg uC8 ⟨1, 0⟩ ⟨-1, 0⟩ 1 false false =
      ⟨some ⟨0, 0⟩, some 1, some 0, some 180, pathType.Arc⟩ ∧
    Arc.fromSvg uC8 ⟨1, 0⟩ ⟨-1, 0⟩ 1 true false =
      ⟨some ⟨0, 0⟩, some 1, some 0, some 180, pathType.Arc⟩ := by
  have h := svg_arc_boundary_180 uC8 (by norm_num [uC8, Pt.mk.injEq])
    (by norm_num [uC8, Pt.mk.injEq]) (by norm_num [uC8, Pt.mk.injEq])
  exact ⟨by norm_num [uC8, Pt.mk.injEq], by norm_num [uC8, Pt.mk.injEq],
    by norm_num [uC8, Pt.mk.injEq], h.1 false, h.1 true⟩

/-- Concrete geometry-utility instance used to instantiate the flag-swap and
path-type theorems at concrete inputs; its members are unconstrained there. -/
def uC6 : GeomUtils where
  ofPointInDegrees := fun _ _ => 0
  ofLineInDegrees := fun _ _ => 0
  toRadians := fun q => q
  fromPolar := fun _ d => ⟨d, 0⟩
  pointDistance := sqDist
  circleIntersection := fun _ _ _ _ => none
  fromArc := fun _ _ _ _ => (⟨0, 0⟩, ⟨0, 0⟩)

/-- Witness for C6: at endpoints (0,0), (2,0) and candidate pair ((1,1), (1,-1)),
the clockwise arc's start angle is the counter-clockwise arc's end angle, and the
candidate-center set of the clockwise span list contains (1,1). -/
theorem clockwise_swaps_endpoints_witness :
    (Arc.from2Points uC6 ⟨0, 0⟩ ⟨2, 0⟩ true).startAngle =
      (Arc.from2Points uC6 ⟨0, 0⟩ ⟨2, 0⟩ false).endAngle ∧
    ((⟨1, 1⟩ : Pt) ∈
        (Arc.svgSpans uC6 ⟨0, 0⟩ ⟨2, 0⟩ true (⟨1, 1⟩, ⟨1, -1⟩)).map IArcSpan.origin ↔
      ((⟨1, 1⟩ : Pt) = ⟨1, 1⟩ ∨ (⟨1, 1⟩ : Pt) = ⟨1, -1⟩)) :=
  ⟨(clockwise_swaps_endpoints uC6 ⟨0, 0⟩ ⟨2, 0⟩ (⟨1, 1⟩, ⟨1, -1⟩)).1.2.2.1,
    (clockwise_swaps_endpoints uC6 ⟨0, 0⟩ ⟨2, 0⟩ (⟨1, 1⟩, ⟨1, -1⟩)).2.2 true ⟨1, 1⟩⟩

/-- Witness for C10: a concrete chord, parallel and line all carry the Line tag. -/
theorem chord_and_parallel_are_lines_witness :
    (Chord.fromArc uC6 ⟨0, 0⟩ 1 0 90).type = pathType.Line ∧
    (Parallel.make uC6 ⟨0, 0⟩ ⟨2, 0⟩ 1 ⟨1, 1⟩).type = pathType.Line ∧
    (Line.make ⟨0, 0⟩ ⟨2, 0⟩).type = pathType.Line :=
  ⟨(chord_and_parallel_are_lines uC6 ⟨0, 0⟩ ⟨0, 0⟩ ⟨2, 0⟩ ⟨1, 1⟩ ⟨0, 0⟩ ⟨2, 0⟩
      1 0 90 1).1,
    (chord_and_parallel_are_lines uC6 ⟨0, 0⟩ ⟨0, 0⟩ ⟨2, 0⟩ ⟨1, 1⟩ ⟨0, 0⟩ ⟨2, 0⟩
      1 0 90 1).2.1,
    (chord_and_parallel_are_lines uC6 ⟨0, 0⟩ ⟨0, 0⟩ ⟨2, 0⟩ ⟨1, 1⟩ ⟨0, 0⟩ ⟨2, 0⟩
      1 0 90 1).2.2.1⟩
